import Mathlib

/-!
Shallow embedding of the `doit-provider-k8s` bootstrapper (packages `k8s`
and `certauth`, plus the `main` entry point).

External processes (ssh, scp, ssh-keygen, doit, openssl) are modelled as
environment parameters: each invocation's exit status and captured output
are supplied by an environment record, and the embedded functions replay
the Go control flow over those outcomes.  The local file system is
modelled as an explicit list of file names (plus, for the SSH key, the key
file's content), threaded through the functions that touch it.

An operation outcome is `Res α`: `ok` for a nil-error return, `err` for a
non-nil Go `error` return, and `panicked` for a Go runtime panic
(out-of-range index or nil-pointer dereference).
-/

inductive Res (α : Type) where
  | ok : α → Res α
  | err : String → Res α
  | panicked : String → Res α
deriving Repr, DecidableEq

/-- `filepath.Join dir name` for a non-empty, already-clean `dir`. -/
def goJoin (dir name : String) : String := dir ++ "/" ++ name

/-! ## Remote Executor: `sshCmd` (k8s/k8s.go lines 222-245) -/

/-- The argument list `sshCmd` builds for each ssh invocation:
`{"-o", "stricthostkeychecking=no", "-i", <dir>/k8s.key, host}` followed by
the caller's arguments (the append loop at lines 227-230). -/
def sshArgsFor (dir host : String) (args : List String) : List String :=
  ["-o", "stricthostkeychecking=no", "-i", goJoin dir "k8s.key", host] ++ args

/-- The retry loop body of `sshCmd`.  `t n` tells whether the transport
invocation made when `failCount = n` exits 0.  `fuel` is
`maxFailCount - failCount`, the number of loop iterations left; the second
component of the result counts transport invocations actually made.
Mirrors: `for failCount < maxFailCount { run; if err == nil return nil;
sleep; failCount++ }; return fmt.Errorf("command failed %d times",
maxFailCount)`. -/
def sshCmdGo (t : Nat → Bool) (maxFailCount : Nat) : Nat → Nat → Res Unit × Nat
  | 0, _ => (Res.err ("command failed " ++ toString maxFailCount ++ " times"), 0)
  | fuel + 1, failCount =>
    if t failCount then (Res.ok (), 1)
    else
      let r := sshCmdGo t maxFailCount fuel (failCount + 1)
      (r.1, r.2 + 1)

/-- `(*K8s).sshCmd`: up to 5 attempts of the ssh transport on the argument
list built by `sshArgsFor`. -/
def sshCmd (transport : List String → Nat → Bool) (dir host : String)
    (args : List String) : Res Unit × Nat :=
  sshCmdGo (transport (sshArgsFor dir host args)) 5 5 0

/-! ## Remote Executor: `sshCopy` (k8s/k8s.go lines 207-220) -/

/-- Outcome of one scp invocation: exit status, captured stdout, and the
message of the `error` value `cmd.Output()` returns on a non-zero exit
(in Go an `*exec.ExitError`, whose message does not embed the captured
output). -/
structure CopyEnv where
  exitOk : Bool
  output : String
  errMsg : String
deriving Repr, DecidableEq

/-- The argument list `sshCopy` passes to scp. -/
def scpArgs (dir host remoteDir name : String) : List String :=
  ["-o", "stricthostkeychecking=no", "-i", goJoin dir "k8s.key",
   goJoin dir name, host ++ ":" ++ remoteDir ++ "/" ++ name]

/-- `(*K8s).sshCopy`: one scp invocation, no retry.  Returns the outcome,
the list of transport invocations made (their argument lists), and the log
lines written.  On a non-zero exit the code logs
`"unable to copy file: " ++ output` and returns the transport's error
value unchanged. -/
def sshCopy (env : CopyEnv) (dir host remoteDir name : String) :
    Res Unit × List (List String) × List String :=
  let args := scpArgs dir host remoteDir name
  if env.exitOk then (Res.ok (), [args], [])
  else (Res.err env.errMsg, [args], ["unable to copy file: " ++ env.output])

/-! ## C1: retry bound of `sshCmd` -/

theorem sshCmdGo_all_fail (t : Nat → Bool) (m : Nat) :
    ∀ fuel failCount, (∀ n, failCount ≤ n → n < failCount + fuel → t n = false) →
    sshCmdGo t m fuel failCount =
      (Res.err ("command failed " ++ toString m ++ " times"), fuel) := by
  intro fuel
  induction fuel with
  | zero => intro fc _; rfl
  | succ k ih =>
    intro fc h
    have hfc : t fc = false := h fc (Nat.le_refl fc) (by omega)
    simp only [sshCmdGo, hfc, Bool.false_eq_true, if_false]
    have := ih (fc + 1) (by intro n h1 h2; exact h n (by omega) (by omega))
    rw [this]

theorem sshCmdGo_first_ok (t : Nat → Bool) (m : Nat) :
    ∀ fuel failCount i, i < fuel → t (failCount + i) = true →
    (∀ j, j < i → t (failCount + j) = false) →
    sshCmdGo t m fuel failCount = (Res.ok (), i + 1) := by
  intro fuel
  induction fuel with
  | zero => intro fc i hi; omega
  | succ k ih =>
    intro fc i hi hok hbefore
    cases i with
    | zero =>
      simp only [Nat.add_zero] at hok
      simp [sshCmdGo, hok]
    | succ j =>
      have hfc : t fc = false := by
        have := hbefore 0 (Nat.succ_pos j)
        simpa using this
      simp only [sshCmdGo, hfc, Bool.false_eq_true, if_false]
      have := ih (fc + 1) j (by omega)
        (by rw [show fc + 1 + j = fc + (j + 1) by omega]; exact hok)
        (by intro a ha
            rw [show fc + 1 + a = fc + (a + 1) by omega]
            exact hbefore (a + 1) (by omega))
      rw [this]

/-! ## `installMasterAuth` (k8s/k8s.go lines 188-205) -/

/-- Environment for `installMasterAuth`: the ssh transport used by
`sshCmd`, and the scp outcome per copied file name. -/
structure AuthEnv where
  cmdTransport : List String → Nat → Bool
  copyExitOk : String → Bool
  copyOutput : String → String
  copyErrMsg : String → String

def AuthEnv.copyEnv (env : AuthEnv) (name : String) : CopyEnv :=
  ⟨env.copyExitOk name, env.copyOutput name, env.copyErrMsg name⟩

/-- A call made through the Remote Executor: an ssh command run, or an scp
copy (local source path, remote target). -/
inductive RCall where
  | runSsh (host : String) (args : List String)
  | copy (src : String) (target : String)
deriving Repr, DecidableEq

/-- The files `installMasterAuth` copies, in source order. -/
def masterAuthFiles : List String :=
  ["ca.pem", "apiserver.pem", "apiserver-key.pem", "admin.pem", "admin-key.pem"]

/-- The trace entry for copying file `f` to the staging directory. -/
def copyCall (dir host stageDir f : String) : RCall :=
  RCall.copy (goJoin dir f) (host ++ ":" ++ stageDir ++ "/" ++ f)

/-- The `for _, f := range {...}` loop of `installMasterAuth`: copies each
file in order, stopping at the first failing copy.  Returns the outcome
and the trace of copy calls made. -/
def copyLoop (env : AuthEnv) (dir host stageDir : String) :
    List String → Res Unit × List RCall
  | [] => (Res.ok (), [])
  | f :: fs =>
    match (sshCopy (env.copyEnv f) dir host stageDir f).1 with
    | Res.ok _ =>
      let r := copyLoop env dir host stageDir fs
      (r.1, copyCall dir host stageDir f :: r.2)
    | Res.err m => (Res.err m, [copyCall dir host stageDir f])
    | Res.panicked m => (Res.panicked m, [copyCall dir host stageDir f])

/-- `(*K8s).installMasterAuth`: `mkdir -p /home/core/ssl` on
`core@masterIP` through `sshCmd`, then the copy loop.  Returns the outcome
and the trace of Remote Executor calls. -/
def installMasterAuth (env : AuthEnv) (dir masterIP : String) :
    Res Unit × List RCall :=
  let host := "core@" ++ masterIP
  let stageDir := "/home/core/ssl"
  let mk := RCall.runSsh host ["mkdir", "-p", stageDir]
  match (sshCmd env.cmdTransport dir host ["mkdir", "-p", stageDir]).1 with
  | Res.ok _ =>
    let r := copyLoop env dir host stageDir masterAuthFiles
    (r.1, mk :: r.2)
  | Res.err m => (Res.err m, [mk])
  | Res.panicked m => (Res.panicked m, [mk])

/-! ## Claims C1, C6, C5 -/

/-- C1: if every transport invocation fails, `sshCmd` makes exactly 5
attempts and returns an error naming the attempt count 5; if attempt `i`
(< 5) is the first to succeed, it returns success after exactly `i + 1`
attempts, with no further attempts. -/
theorem sshCmd_retry_bound (transport : List String → Nat → Bool)
    (dir host : String) (args : List String) :
    ((∀ n, n < 5 → transport (sshArgsFor dir host args) n = false) →
      sshCmd transport dir host args = (Res.err "command failed 5 times", 5)) ∧
    (∀ i, i < 5 → transport (sshArgsFor dir host args) i = true →
      (∀ j, j < i → transport (sshArgsFor dir host args) j = false) →
      sshCmd transport dir host args = (Res.ok (), i + 1)) := by
  constructor
  · intro h
    have e := sshCmdGo_all_fail (transport (sshArgsFor dir host args)) 5 5 0
      (by intro n h1 h2; exact h n (by omega))
    unfold sshCmd
    rw [e]
    rfl
  · intro i hi hok hbefore
    have e := sshCmdGo_first_ok (transport (sshArgsFor dir host args)) 5 5 0 i
      hi (by simpa using hok) (by intro j hj; simpa using hbefore j hj)
    unfold sshCmd
    rw [e]

/-- Witness for C1: a transport that always fails exhausts 5 attempts with
the error naming 5; a transport succeeding first on attempt 2 returns
success after 3 attempts. -/
theorem sshCmd_retry_bound_witness :
    sshCmd (fun _ _ => false) "/tmp/w" "core@203.0.113.10" ["ls"] =
      (Res.err "command failed 5 times", 5) ∧
    sshCmd (fun _ n => n == 2) "/tmp/w" "core@203.0.113.10" ["ls"] =
      (Res.ok (), 3) := by
  constructor
  · exact (sshCmd_retry_bound (fun _ _ => false) "/tmp/w" "core@203.0.113.10"
      ["ls"]).1 (by intro n _; rfl)
  · exact (sshCmd_retry_bound (fun _ n => n == 2) "/tmp/w" "core@203.0.113.10"
      ["ls"]).2 2 (by decide) (by decide) (by intro j hj; interval_cases j <;> rfl)

/-- C6 counterexample: on a non-zero scp exit whose captured remote output
is "REMOTE DIAGNOSTIC" and whose process error reads "exit status 1",
`sshCopy` makes exactly one transport invocation but returns the bare
process error, whose message does not include the remote output (the
output only goes to the log). -/
theorem sshCopy_error_no_output :
    (sshCopy ⟨false, "REMOTE DIAGNOSTIC", "exit status 1"⟩
        "/tmp/w" "core@203.0.113.10" "/home/core/ssl" "ca.pem").1 =
      Res.err "exit status 1" ∧
    (sshCopy ⟨false, "REMOTE DIAGNOSTIC", "exit status 1"⟩
        "/tmp/w" "core@203.0.113.10" "/home/core/ssl" "ca.pem").2.2 =
      ["unable to copy file: REMOTE DIAGNOSTIC"] ∧
    ¬ ("REMOTE DIAGNOSTIC".toList <:+: "exit status 1".toList) := by
  refine ⟨rfl, rfl, by decide⟩

/-- C6 amended: `sshCopy` invokes the transport exactly once (no retry);
on a non-zero transport exit it logs the remote command output and returns
the transport's own error value, whose message is the transport error
message (not a message embedding the remote output). -/
theorem sshCopy_single_attempt (env : CopyEnv) (dir host remoteDir name : String) :
    (sshCopy env dir host remoteDir name).2.1 = [scpArgs dir host remoteDir name] ∧
    (env.exitOk = false →
      (sshCopy env dir host remoteDir name).1 = Res.err env.errMsg ∧
      (sshCopy env dir host remoteDir name).2.2 =
        ["unable to copy file: " ++ env.output]) := by
  constructor
  · unfold sshCopy
    by_cases h : env.exitOk <;> simp [h]
  · intro h
    unfold sshCopy
    simp [h]

/-- Witness for C6 amended: one failing scp call, concrete environment. -/
theorem sshCopy_single_attempt_witness :
    (sshCopy ⟨false, "lost connection", "exit status 1"⟩
        "/tmp/w" "core@h" "/home/core/ssl" "admin.pem").2.1 =
      [scpArgs "/tmp/w" "core@h" "/home/core/ssl" "admin.pem"] ∧
    (sshCopy ⟨false, "lost connection", "exit status 1"⟩
        "/tmp/w" "core@h" "/home/core/ssl" "admin.pem").1 =
      Res.err "exit status 1" := by
  have h := sshCopy_single_attempt ⟨false, "lost connection", "exit status 1"⟩
    "/tmp/w" "core@h" "/home/core/ssl" "admin.pem"
  exact ⟨h.1, (h.2 rfl).1⟩

/-! ## C5: credential installation order -/

theorem copyLoop_all_ok (env : AuthEnv) (dir host stageDir : String) :
    ∀ fs, (∀ f ∈ fs, env.copyExitOk f = true) →
    copyLoop env dir host stageDir fs =
      (Res.ok (), fs.map (copyCall dir host stageDir)) := by
  intro fs
  induction fs with
  | nil => intro _; rfl
  | cons f rest ih =>
    intro h
    have hf : env.copyExitOk f = true := h f (List.mem_cons_self f rest)
    have hr := ih (by intro x hx; exact h x (List.mem_cons_of_mem f hx))
    simp [copyLoop, sshCopy, AuthEnv.copyEnv, hf, hr]

theorem copyLoop_first_fail (env : AuthEnv) (dir host stageDir : String) :
    ∀ as f bs, (∀ a ∈ as, env.copyExitOk a = true) → env.copyExitOk f = false →
    copyLoop env dir host stageDir (as ++ f :: bs) =
      (Res.err (env.copyErrMsg f), (as ++ [f]).map (copyCall dir host stageDir)) := by
  intro as
  induction as with
  | nil =>
    intro f bs _ hf
    simp [copyLoop, sshCopy, AuthEnv.copyEnv, hf]
  | cons a rest ih =>
    intro f bs hall hf
    have ha : env.copyExitOk a = true := hall a (List.mem_cons_self a rest)
    have hr := ih f bs (by intro x hx; exact hall x (List.mem_cons_of_mem a hx)) hf
    simp [copyLoop, sshCopy, AuthEnv.copyEnv, ha, hr]

/-- C5: for a master address `a`, once the staging-directory creation on
`core@a` succeeds, `installMasterAuth` first records that `mkdir` run and
then issues exactly 5 copy calls targeting `/home/core/ssl/<filename>`, in
the fixed order ca.pem, apiserver.pem, apiserver-key.pem, admin.pem,
admin-key.pem; and whenever the first failing copy is file `f`, the
sequence stops at `f` with no further copies. -/
theorem installMasterAuth_order (env : AuthEnv) (dir a : String)
    (hmk : (sshCmd env.cmdTransport dir ("core@" ++ a)
      ["mkdir", "-p", "/home/core/ssl"]).1 = Res.ok ()) :
    ((∀ f ∈ masterAuthFiles, env.copyExitOk f = true) →
      installMasterAuth env dir a = (Res.ok (),
        [RCall.runSsh ("core@" ++ a) ["mkdir", "-p", "/home/core/ssl"],
         copyCall dir ("core@" ++ a) "/home/core/ssl" "ca.pem",
         copyCall dir ("core@" ++ a) "/home/core/ssl" "apiserver.pem",
         copyCall dir ("core@" ++ a) "/home/core/ssl" "apiserver-key.pem",
         copyCall dir ("core@" ++ a) "/home/core/ssl" "admin.pem",
         copyCall dir ("core@" ++ a) "/home/core/ssl" "admin-key.pem"])) ∧
    (∀ as f bs, masterAuthFiles = as ++ f :: bs →
      (∀ x ∈ as, env.copyExitOk x = true) → env.copyExitOk f = false →
      installMasterAuth env dir a = (Res.err (env.copyErrMsg f),
        RCall.runSsh ("core@" ++ a) ["mkdir", "-p", "/home/core/ssl"] ::
          (as ++ [f]).map (copyCall dir ("core@" ++ a) "/home/core/ssl"))) := by
  constructor
  · intro hall
    have hc := copyLoop_all_ok env dir ("core@" ++ a) "/home/core/ssl"
      masterAuthFiles hall
    simp only [installMasterAuth]
    rw [hmk, hc]
    rfl
  · intro as f bs hsplit hok hf
    have hc := copyLoop_first_fail env dir ("core@" ++ a) "/home/core/ssl"
      as f bs hok hf
    simp only [installMasterAuth]
    rw [hmk, hsplit, hc]

/-- Witness for C5: a transport whose mkdir succeeds at once and whose
first two copies succeed while apiserver-key.pem fails: the run records
the mkdir and exactly the first three copies, then stops. -/
theorem installMasterAuth_order_witness :
    installMasterAuth
        ⟨fun _ _ => true, fun _ => true, fun _ => "", fun _ => "e"⟩
        "/tmp/w" "203.0.113.10" =
      (Res.ok (),
        [RCall.runSsh "core@203.0.113.10" ["mkdir", "-p", "/home/core/ssl"],
         copyCall "/tmp/w" "core@203.0.113.10" "/home/core/ssl" "ca.pem",
         copyCall "/tmp/w" "core@203.0.113.10" "/home/core/ssl" "apiserver.pem",
         copyCall "/tmp/w" "core@203.0.113.10" "/home/core/ssl" "apiserver-key.pem",
         copyCall "/tmp/w" "core@203.0.113.10" "/home/core/ssl" "admin.pem",
         copyCall "/tmp/w" "core@203.0.113.10" "/home/core/ssl" "admin-key.pem"]) ∧
    installMasterAuth
        ⟨fun _ _ => true, fun f => !(f == "apiserver-key.pem"),
         fun _ => "", fun _ => "scp failed"⟩
        "/tmp/w" "203.0.113.10" =
      (Res.err "scp failed",
        RCall.runSsh "core@203.0.113.10" ["mkdir", "-p", "/home/core/ssl"] ::
          (["ca.pem", "apiserver.pem"] ++ ["apiserver-key.pem"]).map
            (copyCall "/tmp/w" "core@203.0.113.10" "/home/core/ssl")) := by
  constructor
  · exact (installMasterAuth_order
      ⟨fun _ _ => true, fun _ => true, fun _ => "", fun _ => "e"⟩
      "/tmp/w" "203.0.113.10" (by decide)).1 (by intro f _; rfl)
  · exact (installMasterAuth_order
      ⟨fun _ _ => true, fun f => !(f == "apiserver-key.pem"),
       fun _ => "", fun _ => "scp failed"⟩
      "/tmp/w" "203.0.113.10" (by decide)).2
      ["ca.pem", "apiserver.pem"] "apiserver-key.pem" ["admin.pem", "admin-key.pem"]
      (by decide) (by decide) (by decide)

/-! ## `CreateSSHKey` (k8s/k8s.go lines 75-116) -/

/-- Splitting helper: chunks of `s` delimited by whitespace characters
(consecutive delimiters produce empty chunks, filtered out below). -/
def goFieldsAux : List Char → List Char → List (List Char)
  | [], acc => [acc.reverse]
  | c :: cs, acc =>
    if c.isWhitespace then acc.reverse :: goFieldsAux cs []
    else goFieldsAux cs (c :: acc)

/-- Go `strings.Fields`: split around runs of whitespace, dropping empty
fields. -/
def goFields (s : String) : List String :=
  ((goFieldsAux s.toList []).map String.mk).filter (fun t => t ≠ "")

/-- Go `strings.SplitN s (String sep) 2` for a one-character separator:
at most two parts, the second being everything after the first occurrence
of `sep` (or just `{s}` when `sep` does not occur). -/
def goSplitN2Aux (sep : Char) : List Char → List Char → List String
  | [], acc => [String.mk acc.reverse]
  | c :: cs, acc =>
    if c = sep then [String.mk acc.reverse, String.mk cs]
    else goSplitN2Aux sep cs (c :: acc)

def goSplitN2 (s : String) (sep : Char) : List String :=
  goSplitN2Aux sep s.toList []

/-- The fingerprint extraction of `CreateSSHKey` (lines 92-94):
`fields := strings.Fields(out); parts := strings.SplitN(fields[1], ":", 2);
fingerprint := parts[1]`.  Each index is unchecked: a missing element is a
Go index-out-of-range panic. -/
def extractFingerprint (out : String) : Res String :=
  match (goFields out).get? 1 with
  | none => Res.panicked "runtime error: index out of range"
  | some f1 =>
    match (goSplitN2 f1 ':').get? 1 with
    | none => Res.panicked "runtime error: index out of range"
    | some p => Res.ok p

/-- Environment for `CreateSSHKey`: outcomes of ssh-keygen generation,
the fingerprinting tool (exit status and stdout, as a function of the key
file's content), and the `doit ssh-key get`/`import` calls. -/
structure SSHEnv where
  keygenOk : Bool
  newKey : String
  fingerOk : String → Bool
  fingerOut : String → String
  getOk : String → Bool
  importOk : Bool

/-- `CreateSSHKey` after the key file is guaranteed present with content
`content`; `ran` records whether the generation step was executed.
Returns (outcome, key file content on disk, generation ran). -/
def createSSHKeyAfter (env : SSHEnv) (content : String) (ran : Bool) :
    Res String × Option String × Bool :=
  if env.fingerOk content = false then
    (Res.err "ssh-keygen -lf failed", some content, ran)
  else
    match extractFingerprint (env.fingerOut content) with
    | Res.ok fp =>
      if env.getOk fp then (Res.ok fp, some content, ran)
      else if env.importOk then (Res.ok fp, some content, ran)
      else (Res.err "unable to upload public key", some content, ran)
    | Res.err m => (Res.err m, some content, ran)
    | Res.panicked m => (Res.panicked m, some content, ran)

/-- `(*K8s).CreateSSHKey`.  The local state is the content of the private
key file at `<dir>/k8s.key` (`none` when absent).  The generation step
runs only under the `os.IsNotExist` check; the fingerprint is then
recomputed unconditionally; the key is registered with the cloud API only
when the `ssh-key get` lookup fails. -/
def CreateSSHKey (env : SSHEnv) (keyFile : Option String) :
    Res String × Option String × Bool :=
  match keyFile with
  | none =>
    if env.keygenOk then createSSHKeyAfter env env.newKey true
    else (Res.err "ssh-keygen failed", none, true)
  | some content => createSSHKeyAfter env content false

/-- Whatever `createSSHKeyAfter` returns, the key file content is
unchanged and the generation flag is the one passed in (the post-check
code never writes the key file). -/
theorem createSSHKeyAfter_state (env : SSHEnv) (c : String) (r : Bool) :
    (createSSHKeyAfter env c r).2.1 = some c ∧
    (createSSHKeyAfter env c r).2.2 = r := by
  unfold createSSHKeyAfter
  repeat' split
  all_goals exact ⟨rfl, rfl⟩

/-- If the post-check code succeeds with fingerprint `f` for key content
`c`, re-running it on the same content succeeds with the same `f` (the
fingerprint tool and the registry lookups are functions of `c` and `f`). -/
theorem createSSHKeyAfter_stable (env : SSHEnv) (c : String) (r : Bool)
    (f : String) (hc : (createSSHKeyAfter env c r).1 = Res.ok f) :
    createSSHKeyAfter env c false = (Res.ok f, some c, false) := by
  unfold createSSHKeyAfter at hc ⊢
  split at hc
  · exact absurd hc (by simp)
  · split at hc
    · rename_i hfg hmatch fp hext
      rw [if_neg hfg]
      split at hc
      · rename_i hget
        obtain rfl : fp = f := by simpa using hc
        simp [hget]
      · split at hc
        · rename_i hget himp
          obtain rfl : fp = f := by simpa using hc
          simp [hget, himp]
        · exact absurd hc (by simp)
    · exact absurd hc (by simp)
    · exact absurd hc (by simp)

/-- C3: if a `CreateSSHKey` call succeeds with fingerprint `f`, then a
second call against the resulting working directory returns the same
fingerprint `f`, leaves the key file unchanged, and does not run the
generation step; moreover the generation step runs exactly when the
private key file is initially absent. -/
theorem createSSHKey_idempotent (env : SSHEnv) (keyFile : Option String)
    (f : String) (h : (CreateSSHKey env keyFile).1 = Res.ok f) :
    CreateSSHKey env (CreateSSHKey env keyFile).2.1 =
      (Res.ok f, (CreateSSHKey env keyFile).2.1, false) ∧
    ((CreateSSHKey env keyFile).2.2 = true ↔ keyFile = none) := by
  cases keyFile with
  | none =>
    by_cases hk : env.keygenOk = true
    · have h' : (createSSHKeyAfter env env.newKey true).1 = Res.ok f := by
        unfold CreateSSHKey at h
        rwa [if_pos hk] at h
      have hst := createSSHKeyAfter_state env env.newKey true
      have e1 : (CreateSSHKey env none).2.1 = some env.newKey := by
        unfold CreateSSHKey
        rw [if_pos hk]
        exact hst.1
      have e2 : (CreateSSHKey env none).2.2 = true := by
        unfold CreateSSHKey
        rw [if_pos hk]
        exact hst.2
      refine ⟨?_, by rw [e2]; simp⟩
      rw [e1]
      show createSSHKeyAfter env env.newKey false = _
      exact createSSHKeyAfter_stable env env.newKey true f h'
    · have : (CreateSSHKey env none).1 = Res.err "ssh-keygen failed" := by
        unfold CreateSSHKey
        rw [if_neg hk]
      rw [this] at h
      exact absurd h (by simp)
  | some c =>
    have h' : (createSSHKeyAfter env c false).1 = Res.ok f := h
    have hst := createSSHKeyAfter_state env c false
    have e1 : (CreateSSHKey env (some c)).2.1 = some c := hst.1
    have e2 : (CreateSSHKey env (some c)).2.2 = false := hst.2
    refine ⟨?_, by rw [e2]; simp⟩
    rw [e1]
    show createSSHKeyAfter env c false = _
    exact createSSHKeyAfter_stable env c false f h'

/-- Witness for C3: a concrete environment whose fingerprint tool prints
"2048 MD5:aa:bb:cc host (RSA)"; the first call (empty directory)
generates the key and returns fingerprint "aa:bb:cc", the second returns
the same fingerprint without regenerating. -/
theorem createSSHKey_idempotent_witness :
    (CreateSSHKey
        ⟨true, "KEYMATERIAL", fun _ => true,
         fun _ => "2048 MD5:aa:bb:cc host (RSA)", fun _ => true, true⟩
        none).1 = Res.ok "aa:bb:cc" ∧
    CreateSSHKey
        ⟨true, "KEYMATERIAL", fun _ => true,
         fun _ => "2048 MD5:aa:bb:cc host (RSA)", fun _ => true, true⟩
        (some "KEYMATERIAL") =
      (Res.ok "aa:bb:cc", some "KEYMATERIAL", false) := by
  have h1 : (CreateSSHKey
      ⟨true, "KEYMATERIAL", fun _ => true,
       fun _ => "2048 MD5:aa:bb:cc host (RSA)", fun _ => true, true⟩
      none).1 = Res.ok "aa:bb:cc" := by decide
  have h2 := (createSSHKey_idempotent
    ⟨true, "KEYMATERIAL", fun _ => true,
     fun _ => "2048 MD5:aa:bb:cc host (RSA)", fun _ => true, true⟩
    none "aa:bb:cc" h1).1
  have e1 : (CreateSSHKey
      ⟨true, "KEYMATERIAL", fun _ => true,
       fun _ => "2048 MD5:aa:bb:cc host (RSA)", fun _ => true, true⟩
      none).2.1 = some "KEYMATERIAL" := by decide
  rw [e1] at h2
  exact ⟨h1, h2⟩

/-- C10: the fingerprint extraction indexes the fingerprinting tool's
output without bounds checks.  On an output with fewer than two
whitespace-separated fields ("ok") `CreateSSHKey` panics with an
index-out-of-range, and likewise on an output whose second field contains
no colon ("2048 nocolonhere comment"); in neither case does it return an
error value. -/
theorem createSSHKey_extraction_panics :
    (CreateSSHKey
        ⟨true, "KEY", fun _ => true, fun _ => "ok", fun _ => true, true⟩
        none).1 = Res.panicked "runtime error: index out of range" ∧
    (CreateSSHKey
        ⟨true, "KEY", fun _ => true, fun _ => "2048 nocolonhere comment",
         fun _ => true, true⟩
        none).1 = Res.panicked "runtime error: index out of range" := by
  exact ⟨by decide, by decide⟩

/-! ## `ConfigureMaster` (k8s/k8s.go lines 118-186) -/

/-- Fixed node constants (k8s/k8s.go lines 19-22). -/
def nodeImage : String := "coreos-alpha"

def nodeSize : String := "4gb"

/-- The instance name built at line 128:
`fmt.Sprintf("cs-%s-master-%s", k.name, k.region)`. -/
def masterName (name region : String) : String :=
  "cs-" ++ name ++ "-master-" ++ region

/-- The argument list of the `doit droplet create` call (lines 131-138). -/
def createArgs (name region fingerprint cloudConfigPath : String) :
    List String :=
  ["droplet", "create", masterName name region,
   "--output", "json",
   "--image", nodeImage,
   "--region", region,
   "--size", nodeSize,
   "--ssh-keys", fingerprint,
   "--user-data-file", cloudConfigPath,
   "--wait"]

/-- `(*K8s).doit` appends `-o json` to every invocation (line 248). -/
def doitArgs (args : List String) : List String := args ++ ["-o", "json"]

/-- One entry of `godo.Droplet.Networks.V4`. -/
structure NetworkV4 where
  ipAddress : String
deriving Repr, DecidableEq

/-- A parsed `godo.Droplet` record, reduced to the only attribute the
program reads: the `Networks` pointer (nil when `none`) and its `V4`
address list. -/
structure Droplet where
  networks : Option (List NetworkV4)
deriving Repr, DecidableEq

/-- Environment for `prepareMasterCloudConfig` (lines 164-186): outcomes
of `ioutil.TempFile` (with the chosen file name), `template.Parse`,
`template.Execute` and `f.Close()`. -/
structure PrepEnv where
  tempOk : Bool
  tempName : String
  parseOk : Bool
  execOk : Bool
  closeOk : Bool

/-- `(*K8s).prepareMasterCloudConfig`: creates a temporary file, renders
the fixed cloud-config template into it, and closes it.  The file list is
the set of files on disk; once `TempFile` succeeds the file exists, and
the function does NOT remove it on the later error paths (it just returns
`"", err`). -/
def prepareMasterCloudConfig (env : PrepEnv) (files : List String) :
    Res String × List String :=
  if env.tempOk = false then (Res.err "could not create temp file", files)
  else
    let files1 := env.tempName :: files
    if env.parseOk = false then (Res.err "template parse failed", files1)
    else if env.execOk = false then (Res.err "template execute failed", files1)
    else if env.closeOk = false then (Res.err "close failed", files1)
    else (Res.ok env.tempName, files1)

/-- A step the body of `ConfigureMaster` reaches, in order: the
`droplet create` call (with its full argument list), the address
extraction (`none` when it panics before producing an address), and the
credential installation with its Remote Executor calls. -/
inductive CMStep where
  | create (args : List String)
  | extract (ip : Option String)
  | install (calls : List RCall)
deriving Repr, DecidableEq

/-- Environment for `ConfigureMaster`: the prepare-phase outcomes, the
`doit droplet create` transport (raw output or command error, as a
function of the full argument list), the JSON unmarshalling of that
output, and the Remote Executor environment. -/
structure CMEnv where
  prep : PrepEnv
  doitCreate : List String → Except String String
  unmarshal : String → Except String (List Droplet)
  auth : AuthEnv

/-- The part of `ConfigureMaster` that runs under the scoped cleanup
(lines 128-161): create the droplet, unmarshal, enforce the
single-droplet invariant, read the first IPv4 address (unchecked: a nil
`Networks` pointer or an empty `V4` list is a runtime panic), and install
credentials.  Returns the outcome and the step trace. -/
def configureMasterBody (env : CMEnv) (dir name region fingerprint path : String) :
    Res Unit × List CMStep :=
  let args := doitArgs (createArgs name region fingerprint path)
  match env.doitCreate args with
  | Except.error e => (Res.err e, [CMStep.create args])
  | Except.ok out =>
    match env.unmarshal out with
    | Except.error e => (Res.err e, [CMStep.create args])
    | Except.ok droplets =>
      match droplets with
      | [d] =>
        match d.networks with
        | none =>
          (Res.panicked "runtime error: invalid memory address or nil pointer dereference",
           [CMStep.create args, CMStep.extract none])
        | some v4 =>
          match v4 with
          | [] =>
            (Res.panicked "runtime error: index out of range",
             [CMStep.create args, CMStep.extract none])
          | n0 :: _ =>
            let masterIP := n0.ipAddress
            let r := installMasterAuth env.auth dir masterIP
            match r.1 with
            | Res.ok _ =>
              (Res.ok (),
               [CMStep.create args, CMStep.extract (some masterIP), CMStep.install r.2])
            | Res.err m =>
              (Res.err ("unable to configure tls: " ++ m),
               [CMStep.create args, CMStep.extract (some masterIP), CMStep.install r.2])
            | Res.panicked m =>
              (Res.panicked m,
               [CMStep.create args, CMStep.extract (some masterIP), CMStep.install r.2])
      | ds =>
        (Res.err ("received unexpected number of droplets: " ++ toString ds.length),
         [CMStep.create args])

/-- `(*K8s).ConfigureMaster`.  The `defer os.Remove(cloudConfigPath)` is
registered only after the error check on `prepareMasterCloudConfig`
(lines 120-126): when prepare fails, the function returns at once with the
file list as prepare left it; when prepare succeeds, the temporary file is
erased from the file list on every exit of the body, success, error or
panic alike.  Returns (outcome, files on disk, step trace). -/
def ConfigureMaster (env : CMEnv) (dir name region fingerprint : String)
    (files : List String) : Res Unit × List String × List CMStep :=
  let p := prepareMasterCloudConfig env.prep files
  match p.1 with
  | Res.ok path =>
    let r := configureMasterBody env dir name region fingerprint path
    (r.1, p.2.erase path, r.2)
  | Res.err m => (Res.err m, p.2, [])
  | Res.panicked m => (Res.panicked m, p.2, [])

/-! ## Helper lemmas for `ConfigureMaster` -/

/-- `prepareMasterCloudConfig` returns ok only from its last branch: the
path is the temp file's name and the file now exists on disk. -/
theorem prepareMasterCloudConfig_ok (env : PrepEnv) (files : List String)
    (path : String)
    (h : (prepareMasterCloudConfig env files).1 = Res.ok path) :
    path = env.tempName ∧
    (prepareMasterCloudConfig env files).2 = env.tempName :: files := by
  by_cases h1 : env.tempOk = false
  · simp [prepareMasterCloudConfig, h1] at h
  · rw [Bool.not_eq_false] at h1
    by_cases h2 : env.parseOk = false
    · simp [prepareMasterCloudConfig, h1, h2] at h
    · rw [Bool.not_eq_false] at h2
      by_cases h3 : env.execOk = false
      · simp [prepareMasterCloudConfig, h1, h2, h3] at h
      · rw [Bool.not_eq_false] at h3
        by_cases h4 : env.closeOk = false
        · simp [prepareMasterCloudConfig, h1, h2, h3, h4] at h
        · rw [Bool.not_eq_false] at h4
          have hpath : env.tempName = path := by
            simpa [prepareMasterCloudConfig, h1, h2, h3, h4] using h
          subst hpath
          exact ⟨rfl, by simp [prepareMasterCloudConfig, h1, h2, h3, h4]⟩

/-- When the prepare phase succeeds, `ConfigureMaster` is the body's
outcome and trace, with the temporary file erased on every exit. -/
theorem configureMaster_prep_ok (env : CMEnv) (dir name region fp : String)
    (files : List String) (path : String)
    (hprep : (prepareMasterCloudConfig env.prep files).1 = Res.ok path) :
    ConfigureMaster env dir name region fp files =
      ((configureMasterBody env dir name region fp path).1,
       ((prepareMasterCloudConfig env.prep files).2).erase path,
       (configureMasterBody env dir name region fp path).2) := by
  simp only [ConfigureMaster]
  rw [hprep]

/-- The body's step trace always begins with the `droplet create` call. -/
theorem configureMasterBody_head (env : CMEnv)
    (dir name region fp path : String) :
    ((configureMasterBody env dir name region fp path).2).head? =
      some (CMStep.create (doitArgs (createArgs name region fp path))) := by
  simp only [configureMasterBody]
  repeat' split
  all_goals rfl

/-- A Remote Executor environment whose transports all succeed. -/
def authEnvOk : AuthEnv :=
  ⟨fun _ _ => true, fun _ => true, fun _ => "", fun _ => ""⟩

/-- Concrete environment where the temp file is created but the template
execute step fails: prepare fails after creating the file. -/
def cmEnvLeak : CMEnv :=
  ⟨⟨true, "mcc123", true, false, true⟩,
   fun _ => Except.error "not reached",
   fun _ => Except.error "not reached",
   authEnvOk⟩

/-- Concrete environment whose create call parses to two droplets. -/
def cmEnvTwoDroplets : CMEnv :=
  ⟨⟨true, "mcc-a", true, true, true⟩,
   fun _ => Except.ok "RAW",
   fun _ => Except.ok
     [Droplet.mk (some [NetworkV4.mk "203.0.113.10"]),
      Droplet.mk (some [NetworkV4.mk "203.0.113.11"])],
   authEnvOk⟩

/-- Concrete environment whose create command itself fails (used to
observe the argument list of the create call). -/
def cmEnvNameDemo : CMEnv :=
  ⟨⟨true, "mcc-b", true, true, true⟩,
   fun _ => Except.error "create failed",
   fun _ => Except.error "not reached",
   authEnvOk⟩

/-- Concrete environment whose create call parses to one droplet with an
empty IPv4 address list. -/
def cmEnvNoV4 : CMEnv :=
  ⟨⟨true, "mcc-c", true, true, true⟩,
   fun _ => Except.ok "RAW",
   fun _ => Except.ok [Droplet.mk (some [])],
   authEnvOk⟩

/-! ## C2: single-droplet invariant -/

/-- C2: once the create call's output parses to a droplet list `ds`, a
length other than 1 makes `ConfigureMaster` return the error naming the
received count, with the step trace stopping at the create call (no
address extraction, no credential installation); with exactly one record
the run proceeds to address extraction. -/
theorem configureMaster_single_droplet (env : CMEnv)
    (dir name region fp path out : String) (files : List String)
    (ds : List Droplet)
    (hprep : (prepareMasterCloudConfig env.prep files).1 = Res.ok path)
    (hcreate : env.doitCreate (doitArgs (createArgs name region fp path)) =
      Except.ok out)
    (hparse : env.unmarshal out = Except.ok ds) :
    (ds.length ≠ 1 →
      (ConfigureMaster env dir name region fp files).1 =
        Res.err ("received unexpected number of droplets: " ++
          toString ds.length) ∧
      (ConfigureMaster env dir name region fp files).2.2 =
        [CMStep.create (doitArgs (createArgs name region fp path))]) ∧
    (∀ d, ds = [d] → ∃ o rest,
      (ConfigureMaster env dir name region fp files).2.2 =
        CMStep.create (doitArgs (createArgs name region fp path)) ::
          CMStep.extract o :: rest) := by
  have hcm := configureMaster_prep_ok env dir name region fp files path hprep
  constructor
  · intro hlen
    have hb : configureMasterBody env dir name region fp path =
        (Res.err ("received unexpected number of droplets: " ++
           toString ds.length),
         [CMStep.create (doitArgs (createArgs name region fp path))]) := by
      simp only [configureMasterBody, hcreate, hparse]
      rcases ds with _ | ⟨d, _ | ⟨d2, t⟩⟩
      · rfl
      · exact absurd rfl hlen
      · rfl
    rw [hcm, hb]
    exact ⟨rfl, rfl⟩
  · rintro d rfl
    rw [hcm]
    obtain ⟨nets⟩ := d
    cases nets with
    | none =>
      refine ⟨none, [], ?_⟩
      simp only [configureMasterBody, hcreate, hparse]
    | some v4 =>
      cases v4 with
      | nil =>
        refine ⟨none, [], ?_⟩
        simp only [configureMasterBody, hcreate, hparse]
      | cons n0 ns =>
        refine ⟨some n0.ipAddress,
          [CMStep.install (installMasterAuth env.auth dir n0.ipAddress).2], ?_⟩
        simp only [configureMasterBody, hcreate, hparse]
        cases hr : (installMasterAuth env.auth dir n0.ipAddress).1 <;>
          simp [hr]

/-- Witness for C2: the two-droplet stub environment fails with the error
naming the count 2, and its step trace stops at the create call. -/
theorem configureMaster_single_droplet_witness :
    (ConfigureMaster cmEnvTwoDroplets "/tmp/w" "tcluster" "nyc1" "fp" []).1 =
      Res.err "received unexpected number of droplets: 2" ∧
    (ConfigureMaster cmEnvTwoDroplets "/tmp/w" "tcluster" "nyc1" "fp" []).2.2 =
      [CMStep.create (doitArgs (createArgs "tcluster" "nyc1" "fp" "mcc-a"))] := by
  have h := (configureMaster_single_droplet cmEnvTwoDroplets
    "/tmp/w" "tcluster" "nyc1" "fp" "mcc-a" "RAW" []
    [Droplet.mk (some [NetworkV4.mk "203.0.113.10"]),
     Droplet.mk (some [NetworkV4.mk "203.0.113.11"])]
    (by decide) rfl rfl).1 (by decide)
  exact h

/-! ## C4: temporary cloud-init file cleanup -/

/-- C4 counterexample: when `ioutil.TempFile` succeeds (creating
"mcc123") and the template-execute step then fails,
`prepareMasterCloudConfig` fails after creating the temporary file,
`ConfigureMaster` returns that error — and the temporary file is still on
disk when it returns, because the `defer os.Remove` is registered only
after the error check. -/
theorem configureMaster_temp_leak :
    (ConfigureMaster cmEnvLeak "/tmp/w" "tcluster" "nyc1" "fp" []).1 =
      Res.err "template execute failed" ∧
    "mcc123" ∈ (ConfigureMaster cmEnvLeak "/tmp/w" "tcluster" "nyc1" "fp" []).2.1 := by
  exact ⟨by decide, by decide⟩

/-- C4 amended: whenever `prepareMasterCloudConfig` returns successfully,
the temporary file it created no longer exists on disk when
`ConfigureMaster` returns — on success, error and panic exits of the body
alike (the deferred remove runs on all of them). -/
theorem configureMaster_cleanup (env : CMEnv) (dir name region fp : String)
    (files : List String) (path : String)
    (hprep : (prepareMasterCloudConfig env.prep files).1 = Res.ok path)
    (hfresh : path ∉ files) :
    path ∉ (ConfigureMaster env dir name region fp files).2.1 := by
  have hcm := configureMaster_prep_ok env dir name region fp files path hprep
  have hp := prepareMasterCloudConfig_ok env.prep files path hprep
  rw [hcm]
  show path ∉ ((prepareMasterCloudConfig env.prep files).2).erase path
  obtain ⟨hpath, hfiles⟩ := hp
  subst hpath
  rw [hfiles, List.erase_cons_head]
  exact hfresh

/-- Witness for C4 amended: with every prepare step succeeding and the
create call failing, the temporary file "mcc-b" is gone when
`ConfigureMaster` returns. -/
theorem configureMaster_cleanup_witness :
    "mcc-b" ∉ (ConfigureMaster cmEnvNameDemo "/tmp/w" "tcluster" "nyc1" "fp" []).2.1 :=
  configureMaster_cleanup cmEnvNameDemo "/tmp/w" "tcluster" "nyc1" "fp" []
    "mcc-b" (by decide) (by decide)

/-! ## C7: instance name -/

/-- C7 counterexample: for cluster "tcluster" and region "nyc1" the create
call names the instance "cs-tcluster-master-nyc1" (the name argument is
the third element of the recorded create-call argument list), which is not
"tcluster-master-nyc1": the code prepends the "cs-" prefix that the claim
omits. -/
theorem configureMaster_name_prefixed :
    (ConfigureMaster cmEnvNameDemo "/tmp/w" "tcluster" "nyc1" "fp" []).2.2 =
      [CMStep.create (doitArgs (createArgs "tcluster" "nyc1" "fp" "mcc-b"))] ∧
    (doitArgs (createArgs "tcluster" "nyc1" "fp" "mcc-b")).get? 2 =
      some "cs-tcluster-master-nyc1" ∧
    "cs-tcluster-master-nyc1" ≠ "tcluster-master-nyc1" := by
  exact ⟨by decide, by decide, by decide⟩

/-- C7 amended: for every cluster name C and region R, when the prepare
phase succeeds the step trace starts with the create call, and the name
argument of that call (index 2 of its argument list) is
"cs-" ++ C ++ "-master-" ++ R. -/
theorem configureMaster_instance_name (env : CMEnv)
    (dir name region fp : String) (files : List String) (path : String)
    (hprep : (prepareMasterCloudConfig env.prep files).1 = Res.ok path) :
    ((ConfigureMaster env dir name region fp files).2.2).head? =
      some (CMStep.create (doitArgs (createArgs name region fp path))) ∧
    (doitArgs (createArgs name region fp path)).get? 2 =
      some ("cs-" ++ name ++ "-master-" ++ region) := by
  have hcm := configureMaster_prep_ok env dir name region fp files path hprep
  rw [hcm]
  exact ⟨configureMasterBody_head env dir name region fp path, rfl⟩

/-- Witness for C7 amended: concrete run with the create call failing. -/
theorem configureMaster_instance_name_witness :
    ((ConfigureMaster cmEnvNameDemo "/tmp/w" "tcluster" "nyc1" "fp" []).2.2).head? =
      some (CMStep.create (doitArgs (createArgs "tcluster" "nyc1" "fp" "mcc-b"))) ∧
    (doitArgs (createArgs "tcluster" "nyc1" "fp" "mcc-b")).get? 2 =
      some ("cs-" ++ "tcluster" ++ "-master-" ++ "nyc1") :=
  configureMaster_instance_name cmEnvNameDemo "/tmp/w" "tcluster" "nyc1" "fp" []
    "mcc-b" (by decide)

/-! ## C8: address extraction -/

/-- C8 counterexample: with a single droplet whose IPv4 list is empty,
`ConfigureMaster` does not stop with an error — it panics with an
index-out-of-range (the unchecked `Networks.V4[0]`), so the run crashes
rather than failing fast with an error value. -/
theorem configureMaster_no_address_panic :
    (ConfigureMaster cmEnvNoV4 "/tmp/w" "tcluster" "nyc1" "fp" []).1 =
      Res.panicked "runtime error: index out of range" ∧
    ∀ m, Res.err m ≠ (ConfigureMaster cmEnvNoV4 "/tmp/w" "tcluster" "nyc1" "fp" []).1 := by
  refine ⟨by decide, ?_⟩
  intro m h
  have e : (ConfigureMaster cmEnvNoV4 "/tmp/w" "tcluster" "nyc1" "fp" []).1 =
      Res.panicked "runtime error: index out of range" := by decide
  rw [e] at h
  exact Res.noConfusion h

/-- C8 amended: the address extraction reads the first IPv4 entry of the
single returned record; when the record has a nil networks object or an
empty IPv4 list, the run panics (nil dereference / index out of range)
with no install step — it does not fall back to another address, but the
stop is a crash, not an error return; when an IPv4 entry exists, the
extracted address is the first entry. -/
theorem configureMaster_extract_first_v4 (env : CMEnv)
    (dir name region fp path out : String) (files : List String) (d : Droplet)
    (hprep : (prepareMasterCloudConfig env.prep files).1 = Res.ok path)
    (hcreate : env.doitCreate (doitArgs (createArgs name region fp path)) =
      Except.ok out)
    (hparse : env.unmarshal out = Except.ok [d]) :
    (d.networks = none →
      (ConfigureMaster env dir name region fp files).1 =
        Res.panicked "runtime error: invalid memory address or nil pointer dereference" ∧
      (ConfigureMaster env dir name region fp files).2.2 =
        [CMStep.create (doitArgs (createArgs name region fp path)),
         CMStep.extract none]) ∧
    (d.networks = some [] →
      (ConfigureMaster env dir name region fp files).1 =
        Res.panicked "runtime error: index out of range" ∧
      (ConfigureMaster env dir name region fp files).2.2 =
        [CMStep.create (doitArgs (createArgs name region fp path)),
         CMStep.extract none]) ∧
    (∀ n0 ns, d.networks = some (n0 :: ns) → ∃ rest,
      (ConfigureMaster env dir name region fp files).2.2 =
        CMStep.create (doitArgs (createArgs name region fp path)) ::
          CMStep.extract (some n0.ipAddress) :: rest) := by
  have hcm := configureMaster_prep_ok env dir name region fp files path hprep
  refine ⟨?_, ?_, ?_⟩
  · intro hnil
    rw [hcm]
    constructor <;>
      simp only [configureMasterBody, hcreate, hparse, hnil]
  · intro hempty
    rw [hcm]
    constructor <;>
      simp only [configureMasterBody, hcreate, hparse, hempty]
  · intro n0 ns hcons
    rw [hcm]
    refine ⟨[CMStep.install (installMasterAuth env.auth dir n0.ipAddress).2], ?_⟩
    simp only [configureMasterBody, hcreate, hparse, hcons]
    cases hr : (installMasterAuth env.auth dir n0.ipAddress).1 <;> simp [hr]

/-- Witness for C8 amended: the empty-IPv4 stub panics with
index-out-of-range and stops before any install step. -/
theorem configureMaster_extract_first_v4_witness :
    (ConfigureMaster cmEnvNoV4 "/tmp/w" "tcluster" "nyc1" "fp" []).1 =
      Res.panicked "runtime error: index out of range" ∧
    (ConfigureMaster cmEnvNoV4 "/tmp/w" "tcluster" "nyc1" "fp" []).2.2 =
      [CMStep.create (doitArgs (createArgs "tcluster" "nyc1" "fp" "mcc-c")),
       CMStep.extract none] :=
  ((configureMaster_extract_first_v4 cmEnvNoV4 "/tmp/w" "tcluster" "nyc1" "fp"
      "mcc-c" "RAW" [] (Droplet.mk (some []))
      (by decide) rfl rfl).2.1) rfl

/-! ## certauth package (certauth.go)

The CA manager's state is the pair (files in the working directory,
number of openssl invocations made so far).  The external `openssl`
process is a black box supplying success or failure per invocation, with
the one piece of real tool behaviour the code relies on: an invocation
that must read an input file which does not exist exits non-zero, and a
successful invocation creates its output files. -/

/-- Environment for the CA manager: spurious tool failure per invocation
index (tool missing, permissions, ...), and the outcomes of `os.Create`,
`template.Parse` and `template.Execute` per config-file name. -/
structure CAEnv where
  toolOk : Nat → Bool
  createOk : String → Bool
  parseOk : String → Bool
  execOk : String → Bool

/-- One `(*CA).openssl` invocation, as a black-box process: it fails when
the environment makes it fail or when one of the files it must read is
absent from the working directory; on success it writes its output
files.  The invocation counter advances either way. -/
def opensslStep (env : CAEnv) (reads writes : List String) :
    List String × Nat → Res Unit × (List String × Nat)
  | (fs, n) =>
    if env.toolOk n = false then
      (Res.err "openssl: invocation failed", (fs, n + 1))
    else if reads.all (fun f => decide (f ∈ fs)) then
      (Res.ok (), (writes ++ fs, n + 1))
    else
      (Res.err "openssl: cannot open input file", (fs, n + 1))

/-- The config-file rendering common to `CreateAPIServerKeyPair` and
`CreateWorkerKeyPair`: `os.Create` (the file exists from here on even if
a later step fails), `template.Parse`, `template.Execute`. -/
def writeConfig (env : CAEnv) (name : String) (st : List String × Nat) :
    Res Unit × (List String × Nat) :=
  if env.createOk name = false then (Res.err "create config failed", st)
  else
    let st1 := (name :: st.1, st.2)
    if env.parseOk name = false then (Res.err "template parse failed", st1)
    else if env.execOk name = false then (Res.err "template execute failed", st1)
    else (Res.ok (), st1)

/-- `(*CA).CreateRoot`: `genrsa` the root key, then self-sign the root
certificate (reads the key, writes ca.pem). -/
def CreateRoot (env : CAEnv) (st : List String × Nat) :
    Res Unit × (List String × Nat) :=
  let g := opensslStep env [] ["ca-key.pem"] st
  match g.1 with
  | Res.ok _ => opensslStep env ["ca-key.pem"] ["ca.pem"] g.2
  | Res.err m => (Res.err m, g.2)
  | Res.panicked m => (Res.panicked m, g.2)

/-- `(*CA).CreateAPIServerKeyPair`: render openssl.cnf, `genrsa` the key,
create the CSR (reads key and config), sign against the root (reads the
CSR, ca.pem and ca-key.pem). -/
def CreateAPIServerKeyPair (env : CAEnv) (masterIP : String)
    (st : List String × Nat) : Res Unit × (List String × Nat) :=
  let w := writeConfig env "openssl.cnf" st
  match w.1 with
  | Res.ok _ =>
    let g := opensslStep env [] ["apiserver-key.pem"] w.2
    match g.1 with
    | Res.ok _ =>
      let c := opensslStep env ["apiserver-key.pem", "openssl.cnf"]
        ["apiserver.csr"] g.2
      match c.1 with
      | Res.ok _ =>
        opensslStep env ["apiserver.csr", "ca.pem", "ca-key.pem"]
          ["apiserver.pem"] c.2
      | Res.err m => (Res.err m, c.2)
      | Res.panicked m => (Res.panicked m, c.2)
    | Res.err m => (Res.err m, g.2)
    | Res.panicked m => (Res.panicked m, g.2)
  | Res.err m => (Res.err m, w.2)
  | Res.panicked m => (Res.panicked m, w.2)

/-- `(*CA).CreateWorkerKeyPair`: render worker-openssl.cnf, `genrsa` the
per-worker key, create the CSR, sign against the root; outputs are
namespaced by the worker's FQDN. -/
def CreateWorkerKeyPair (env : CAEnv) (workerFQDN workerIP : String)
    (st : List String × Nat) : Res Unit × (List String × Nat) :=
  let w := writeConfig env "worker-openssl.cnf" st
  match w.1 with
  | Res.ok _ =>
    let g := opensslStep env [] [workerFQDN ++ "-worker-key.pem"] w.2
    match g.1 with
    | Res.ok _ =>
      let c := opensslStep env
        [workerFQDN ++ "-worker-key.pem", "worker-openssl.cnf"]
        [workerFQDN ++ "-worker.csr"] g.2
      match c.1 with
      | Res.ok _ =>
        opensslStep env [workerFQDN ++ "-worker.csr", "ca.pem", "ca-key.pem"]
          [workerFQDN ++ "-worker.pem"] c.2
      | Res.err m => (Res.err m, c.2)
      | Res.panicked m => (Res.panicked m, c.2)
    | Res.err m => (Res.err m, g.2)
    | Res.panicked m => (Res.panicked m, g.2)
  | Res.err m => (Res.err m, w.2)
  | Res.panicked m => (Res.panicked m, w.2)

/-- `(*CA).CreateAdminKeyPair`: `genrsa` the admin key, create the CSR
(no config file), sign against the root. -/
def CreateAdminKeyPair (env : CAEnv) (st : List String × Nat) :
    Res Unit × (List String × Nat) :=
  let g := opensslStep env [] ["admin-key.pem"] st
  match g.1 with
  | Res.ok _ =>
    let c := opensslStep env ["admin-key.pem"] ["admin.csr"] g.2
    match c.1 with
    | Res.ok _ =>
      opensslStep env ["admin.csr", "ca.pem", "ca-key.pem"] ["admin.pem"] c.2
    | Res.err m => (Res.err m, c.2)
    | Res.panicked m => (Res.panicked m, c.2)
  | Res.err m => (Res.err m, g.2)
  | Res.panicked m => (Res.panicked m, g.2)

/-! ## C9: leaf issuance requires the root -/

theorem opensslStep_missing (env : CAEnv) (reads writes : List String)
    (fs : List String) (n : Nat) (r : String) (hr : r ∈ reads)
    (hfs : r ∉ fs) :
    ∃ m, (opensslStep env reads writes (fs, n)).1 = Res.err m := by
  simp only [opensslStep]
  by_cases ht : env.toolOk n = false
  · rw [if_pos ht]
    exact ⟨_, rfl⟩
  · rw [if_neg ht]
    have hall : ¬ (reads.all (fun f => decide (f ∈ fs)) = true) := by
      intro hx
      rw [List.all_eq_true] at hx
      have := hx r hr
      simp at this
      exact hfs this
    rw [if_neg hall]
    exact ⟨_, rfl⟩

theorem opensslStep_fst_ok_state (env : CAEnv) (reads writes : List String)
    (fs : List String) (n : Nat) (u : Unit)
    (h : (opensslStep env reads writes (fs, n)).1 = Res.ok u) :
    (opensslStep env reads writes (fs, n)).2 = (writes ++ fs, n + 1) := by
  by_cases ht : env.toolOk n = false
  · simp [opensslStep, ht] at h
  · by_cases ha : reads.all (fun f => decide (f ∈ fs)) = true
    · simp [opensslStep, ht, ha]
    · simp [opensslStep, ht, ha] at h

theorem opensslStep_fst_not_panicked (env : CAEnv) (reads writes : List String)
    (fs : List String) (n : Nat) (m : String)
    (h : (opensslStep env reads writes (fs, n)).1 = Res.panicked m) :
    False := by
  by_cases ht : env.toolOk n = false
  · simp [opensslStep, ht] at h
  · by_cases ha : reads.all (fun f => decide (f ∈ fs)) = true
    · simp [opensslStep, ht, ha] at h
    · simp [opensslStep, ht, ha] at h

theorem writeConfig_fst_ok_state (env : CAEnv) (name : String)
    (fs : List String) (n : Nat) (u : Unit)
    (h : (writeConfig env name (fs, n)).1 = Res.ok u) :
    (writeConfig env name (fs, n)).2 = (name :: fs, n) := by
  by_cases c1 : env.createOk name = false
  · simp [writeConfig, c1] at h
  · by_cases c2 : env.parseOk name = false
    · simp [writeConfig, c1, c2] at h
    · by_cases c3 : env.execOk name = false
      · simp [writeConfig, c1, c2, c3] at h
      · simp [writeConfig, c1, c2, c3]

theorem writeConfig_fst_not_panicked (env : CAEnv) (name : String)
    (fs : List String) (n : Nat) (m : String)
    (h : (writeConfig env name (fs, n)).1 = Res.panicked m) : False := by
  by_cases c1 : env.createOk name = false
  · simp [writeConfig, c1] at h
  · by_cases c2 : env.parseOk name = false
    · simp [writeConfig, c1, c2] at h
    · by_cases c3 : env.execOk name = false
      · simp [writeConfig, c1, c2, c3] at h
      · simp [writeConfig, c1, c2, c3] at h

theorem ca_ne_append (s suffix : String) (hlen : 6 < suffix.length)
    (h : "ca.pem" = s ++ suffix) : False := by
  have hl := congrArg String.length h
  rw [String.length_append] at hl
  have h6 : "ca.pem".length = 6 := rfl
  rw [h6] at hl
  omega

theorem CreateAPIServerKeyPair_requires_root (env : CAEnv) (masterIP : String)
    (fs : List String) (n : Nat) (hca : "ca.pem" ∉ fs) :
    ∃ m, (CreateAPIServerKeyPair env masterIP (fs, n)).1 = Res.err m := by
  simp only [CreateAPIServerKeyPair]
  cases h1 : (writeConfig env "openssl.cnf" (fs, n)).1 with
  | err m => exact ⟨m, rfl⟩
  | panicked m => exact (writeConfig_fst_not_panicked env _ fs n m h1).elim
  | ok u =>
    rw [writeConfig_fst_ok_state env _ fs n u h1]
    simp only [List.cons_append, List.nil_append]
    cases h2 : (opensslStep env [] ["apiserver-key.pem"]
        ("openssl.cnf" :: fs, n)).1 with
    | err m => exact ⟨m, rfl⟩
    | panicked m => exact (opensslStep_fst_not_panicked env _ _ _ _ m h2).elim
    | ok u2 =>
      rw [opensslStep_fst_ok_state env _ _ _ _ u2 h2]
      simp only [List.cons_append, List.nil_append]
      cases h3 : (opensslStep env ["apiserver-key.pem", "openssl.cnf"]
          ["apiserver.csr"] ("apiserver-key.pem" :: "openssl.cnf" :: fs, n + 1)).1 with
      | err m => exact ⟨m, rfl⟩
      | panicked m => exact (opensslStep_fst_not_panicked env _ _ _ _ m h3).elim
      | ok u3 =>
        rw [opensslStep_fst_ok_state env _ _ _ _ u3 h3]
        simp only [List.cons_append, List.nil_append]
        refine opensslStep_missing env _ _ _ _ "ca.pem" (by decide) ?_
        intro hx
        rcases List.mem_cons.mp hx with he | hx
        · exact absurd he (by decide)
        rcases List.mem_cons.mp hx with he | hx
        · exact absurd he (by decide)
        rcases List.mem_cons.mp hx with he | hx
        · exact absurd he (by decide)
        · exact hca hx

theorem CreateWorkerKeyPair_requires_root (env : CAEnv)
    (workerFQDN workerIP : String) (fs : List String) (n : Nat)
    (hca : "ca.pem" ∉ fs) :
    ∃ m, (CreateWorkerKeyPair env workerFQDN workerIP (fs, n)).1 = Res.err m := by
  simp only [CreateWorkerKeyPair]
  cases h1 : (writeConfig env "worker-openssl.cnf" (fs, n)).1 with
  | err m => exact ⟨m, rfl⟩
  | panicked m => exact (writeConfig_fst_not_panicked env _ fs n m h1).elim
  | ok u =>
    rw [writeConfig_fst_ok_state env _ fs n u h1]
    simp only [List.cons_append, List.nil_append]
    cases h2 : (opensslStep env [] [workerFQDN ++ "-worker-key.pem"]
        ("worker-openssl.cnf" :: fs, n)).1 with
    | err m => exact ⟨m, rfl⟩
    | panicked m => exact (opensslStep_fst_not_panicked env _ _ _ _ m h2).elim
    | ok u2 =>
      rw [opensslStep_fst_ok_state env _ _ _ _ u2 h2]
      simp only [List.cons_append, List.nil_append]
      cases h3 : (opensslStep env
          [workerFQDN ++ "-worker-key.pem", "worker-openssl.cnf"]
          [workerFQDN ++ "-worker.csr"]
          ((workerFQDN ++ "-worker-key.pem") :: "worker-openssl.cnf" :: fs,
           n + 1)).1 with
      | err m => exact ⟨m, rfl⟩
      | panicked m => exact (opensslStep_fst_not_panicked env _ _ _ _ m h3).elim
      | ok u3 =>
        rw [opensslStep_fst_ok_state env _ _ _ _ u3 h3]
        simp only [List.cons_append, List.nil_append]
        refine opensslStep_missing env _ _ _ _ "ca.pem" (by simp) ?_
        intro hx
        rcases List.mem_cons.mp hx with he | hx
        · exact ca_ne_append workerFQDN "-worker.csr" (by decide) he
        rcases List.mem_cons.mp hx with he | hx
        · exact ca_ne_append workerFQDN "-worker-key.pem" (by decide) he
        rcases List.mem_cons.mp hx with he | hx
        · exact absurd he (by decide)
        · exact hca hx

theorem CreateAdminKeyPair_requires_root (env : CAEnv) (fs : List String)
    (n : Nat) (hca : "ca.pem" ∉ fs) :
    ∃ m, (CreateAdminKeyPair env (fs, n)).1 = Res.err m := by
  simp only [CreateAdminKeyPair]
  cases h1 : (opensslStep env [] ["admin-key.pem"] (fs, n)).1 with
  | err m => exact ⟨m, rfl⟩
  | panicked m => exact (opensslStep_fst_not_panicked env _ _ _ _ m h1).elim
  | ok u =>
    rw [opensslStep_fst_ok_state env _ _ _ _ u h1]
    simp only [List.cons_append, List.nil_append]
    cases h2 : (opensslStep env ["admin-key.pem"] ["admin.csr"]
        ("admin-key.pem" :: fs, n + 1)).1 with
    | err m => exact ⟨m, rfl⟩
    | panicked m => exact (opensslStep_fst_not_panicked env _ _ _ _ m h2).elim
    | ok u2 =>
      rw [opensslStep_fst_ok_state env _ _ _ _ u2 h2]
      simp only [List.cons_append, List.nil_append]
      refine opensslStep_missing env _ _ _ _ "ca.pem" (by decide) ?_
      intro hx
      rcases List.mem_cons.mp hx with he | hx
      · exact absurd he (by decide)
      rcases List.mem_cons.mp hx with he | hx
      · exact absurd he (by decide)
      · exact hca hx

/-- C9: in a working directory holding no root CA material (no ca.pem),
every leaf-issuance operation — `CreateAPIServerKeyPair`,
`CreateWorkerKeyPair`, `CreateAdminKeyPair` — returns an error for every
environment (at the latest, the signing step against the absent root
fails, since no earlier step of these functions creates ca.pem); none of
them panics or succeeds. -/
theorem ca_leaf_requires_root (env : CAEnv)
    (masterIP workerFQDN workerIP : String) (fs : List String) (n : Nat)
    (hca : "ca.pem" ∉ fs) :
    (∃ m, (CreateAPIServerKeyPair env masterIP (fs, n)).1 = Res.err m) ∧
    (∃ m, (CreateWorkerKeyPair env workerFQDN workerIP (fs, n)).1 = Res.err m) ∧
    (∃ m, (CreateAdminKeyPair env (fs, n)).1 = Res.err m) :=
  ⟨CreateAPIServerKeyPair_requires_root env masterIP fs n hca,
   CreateWorkerKeyPair_requires_root env workerFQDN workerIP fs n hca,
   CreateAdminKeyPair_requires_root env fs n hca⟩

/-- Witness for C9: the empty working directory and an environment whose
every tool invocation would succeed — each leaf issuance still errs. -/
theorem ca_leaf_requires_root_witness :
    (∃ m, (CreateAPIServerKeyPair
      ⟨fun _ => true, fun _ => true, fun _ => true, fun _ => true⟩
      "127.0.0.1" ([], 0)).1 = Res.err m) ∧
    (∃ m, (CreateWorkerKeyPair
      ⟨fun _ => true, fun _ => true, fun _ => true, fun _ => true⟩
      "worker.example.com" "172.17.0.5" ([], 0)).1 = Res.err m) ∧
    (∃ m, (CreateAdminKeyPair
      ⟨fun _ => true, fun _ => true, fun _ => true, fun _ => true⟩
      ([], 0)).1 = Res.err m) :=
  ca_leaf_requires_root
    ⟨fun _ => true, fun _ => true, fun _ => true, fun _ => true⟩
    "127.0.0.1" "worker.example.com" "172.17.0.5" [] 0 (by simp)
